import Mathlib

/-!
# Verification of the mutation layer of `graphql-app-backend`

Shallow embedding of `src/resolvers/Mutation.js`: the GraphQL mutation
resolvers of an e-commerce backend (item CRUD, auth, cart, checkout).
The persistence collaborator (a Prisma-style store) is modelled as an
in-memory record of entity lists; each resolver is a function from its
arguments and the store to the new store paired with an `Except` result
(a thrown JS error becomes `.error`, and the store component records
exactly the writes performed before the throw).
-/

namespace GraphQLBackend

/-- JS values appearing in mutation argument objects (strings and integer
numbers suffice for the fields of this schema). -/
inductive JsVal where
  | str : String → JsVal
  | num : Nat → JsVal
deriving DecidableEq

/-- A JS object, as an association list of field names to values
(field names are unique in a JS object literal). -/
abbrev JsObj : Type := List (String × JsVal)

/-- Field lookup on a JS object (`o.k`). -/
def jsGet (o : JsObj) (k : String) : Option JsVal :=
  (o.find? (fun kv => kv.1 = k)).map (fun kv => kv.2)

/-- JS `delete o.k`: removes the binding for `k`. -/
def jsDelete (o : JsObj) (k : String) : JsObj :=
  o.filter (fun kv => kv.1 ≠ k)

/-- Error taxonomy of the mutation layer (spec §7).  `InternalError`
stands for a JS runtime TypeError (dereferencing a missing record),
which also aborts the request. -/
inductive Err where
  | NotAuthenticated
  | PermissionDenied
  | OwnershipDenied
  | NotFound
  | PasswordMismatch
  | InvalidOrExpiredToken
  | PaymentFailed
  | InternalError
deriving DecidableEq

/-- A user record (`User` in the datamodel). Timestamps are
milliseconds-since-epoch integers, as produced by `Date.now()`. -/
structure User where
  id : Nat
  name : String
  email : String
  password : String
  permissions : List String
  resetToken : Option String
  resetTokenExpiry : Option Int
deriving DecidableEq

/-- An item for sale (`Item`). `price` is in integer minor currency
units; `userId` is the owning user. -/
structure Item where
  id : Nat
  title : String
  description : String
  image : String
  largeImage : String
  price : Nat
  userId : Nat
deriving DecidableEq

/-- A cart entry (`CartItem`): owning user, referenced item, quantity. -/
structure CartItem where
  id : Nat
  userId : Nat
  itemId : Nat
  quantity : Nat
deriving DecidableEq

/-- A snapshot line of an order (`OrderItem`): a copy of the item's
display and price fields plus the purchased quantity. -/
structure OrderItem where
  title : String
  description : String
  image : String
  largeImage : String
  price : Nat
  quantity : Nat
  userId : Nat
deriving DecidableEq

/-- A persisted order (`Order`): total paid, external charge id, and the
snapshot lines. -/
structure Order where
  id : Nat
  total : Nat
  charge : String
  items : List OrderItem
  userId : Nat
deriving DecidableEq

/-- The persistence store: one list per entity, plus a fresh-id counter
standing for the database's id generator. -/
structure DB where
  users : List User
  items : List Item
  cartItems : List CartItem
  orders : List Order
  nextId : Nat
deriving DecidableEq

/-- Per-request identity, as decorated onto `ctx.request` by the session
middleware: the decoded user id from the JWT cookie, and the fetched
user record (both absent for an anonymous request). -/
structure Request where
  userId : Option Nat
  user : Option User

/-- A confirmed charge returned by the payment gateway
(spec §6: `Charge{id, amount}`). -/
structure Charge where
  id : String
  amount : Nat
deriving DecidableEq

/-- The payment gateway (`stripe.charges.create`): amount, currency and
source token in, a confirmed charge or an error out.  It is an external
collaborator, so it is a parameter of the checkout workflow. -/
abbrev Gateway : Type := Nat → String → String → Except Unit Charge

/-- Modelled from the spec: `hasPermission` lives in `src/utils.js`,
which is not part of the provided sources.  Spec §4.1: reject with
`NotAuthenticated` when no caller identity is present (this check
precedes the permission check); otherwise allow iff the intersection of
the caller's permissions and the required tags is non-empty, rejecting
with `PermissionDenied`. -/
def hasPermission (user : Option User) (required : List String) : Except Err Unit :=
  match user with
  | none => .error .NotAuthenticated
  | some u =>
    if required.any (fun p => u.permissions.contains p) then .ok ()
    else .error .PermissionDenied

/-- Modelled from the spec: `signInError` (from `src/utils.js`, not in
the provided sources) throws the not-signed-in error; spec §7 names this
signal `NotAuthenticated`. -/
def signInError : Err := .NotAuthenticated

/-- Modelled from the spec: `itemOwnershipError` (from `src/utils.js`,
not in the provided sources) throws the not-the-owner error; spec §7
names this signal `OwnershipDenied`. -/
def itemOwnershipError : Err := .OwnershipDenied

/-- Arguments of `createItem` (the item's own fields; the owner comes
from the request). -/
structure ItemArgs where
  title : String
  description : String
  image : String
  largeImage : String
  price : Nat

/-- Resolver `createItem`: require a signed-in user, require `ITEMCREATE`, then
create the item connected to the caller. -/
def createItem (req : Request) (args : ItemArgs) (db : DB) : DB × Except Err Item :=
  match req.userId with
  | none => (db, .error signInError)
  | some userId =>
    match hasPermission req.user ["ITEMCREATE"] with
    | .error e => (db, .error e)
    | .ok _ =>
      let item : Item :=
        { id := db.nextId, title := args.title, description := args.description,
          image := args.image, largeImage := args.largeImage,
          price := args.price, userId := userId }
      ({ db with items := db.items ++ [item], nextId := db.nextId + 1 }, .ok item)

/-- The store's update of a single item field by (JS field name, value):
the model of the persistence collaborator's `updateItem` data payload
application.  An `"id"` key would overwrite the identifier. -/
def applyField (it : Item) (k : String) (v : JsVal) : Item :=
  if k = "id" then match v with | .num n => { it with id := n } | _ => it
  else if k = "title" then match v with | .str s => { it with title := s } | _ => it
  else if k = "description" then match v with | .str s => { it with description := s } | _ => it
  else if k = "image" then match v with | .str s => { it with image := s } | _ => it
  else if k = "largeImage" then match v with | .str s => { it with largeImage := s } | _ => it
  else if k = "price" then match v with | .num n => { it with price := n } | _ => it
  else it

/-- Apply a whole update payload to an item, field by field. -/
def applyFields (it : Item) (o : JsObj) : Item :=
  o.foldl (fun i kv => applyField i kv.1 kv.2) it

/-- Resolver `updateItem`: fetch the item by `args.id`, require ownership, require
`ITEMUPDATE`, then send `{...args}` minus the `id` key as the update
payload.  No signed-in check exists in this resolver: an anonymous
caller fails the ownership comparison. -/
def updateItem (req : Request) (args : JsObj) (db : DB) : DB × Except Err Item :=
  match jsGet args "id" with
  | some (.num argsId) =>
    (match db.items.find? (fun it => it.id == argsId) with
     | none => (db, .error .InternalError)
     | some item =>
       let ownsItem : Bool := match req.userId with
         | some uid => item.userId == uid
         | none => false
       if ownsItem then
         match hasPermission req.user ["ITEMUPDATE"] with
         | .error e => (db, .error e)
         | .ok _ =>
           let updates := jsDelete args "id"
           let updatedItem := applyFields item updates
           ({ db with items :=
                db.items.map (fun it => if it.id == argsId then updatedItem else it) },
            .ok updatedItem)
       else (db, .error itemOwnershipError))
  | _ => (db, .error .InternalError)

/-- Resolver `deleteItem`: fetch the item, require ownership, require
`ITEMDELETE`, then delete it.  As in `updateItem`, there is no
signed-in check. -/
def deleteItem (req : Request) (argsId : Nat) (db : DB) : DB × Except Err Item :=
  match db.items.find? (fun it => it.id == argsId) with
  | none => (db, .error .InternalError)
  | some item =>
    let ownsItem : Bool := match req.userId with
      | some uid => item.userId == uid
      | none => false
    if ownsItem then
      match hasPermission req.user ["ITEMDELETE"] with
      | .error e => (db, .error e)
      | .ok _ =>
        ({ db with items := db.items.filter (fun it => !(it.id == argsId)) }, .ok item)
    else (db, .error itemOwnershipError)

/-- JS `String.prototype.toLowerCase()` (as called on `args.email`),
modelled characterwise over the string's characters. -/
def jsToLower (s : String) : String := ⟨s.data.map Char.toLower⟩

/-- Arguments of `signup`. -/
structure SignupArgs where
  name : String
  email : String
  password : String

/-- Resolver `signup`: hash the password (the hash function is an external
collaborator, passed as a parameter), create the user with the email
lowercased and the default permission set.  JWT/cookie issuance is
transport-level and out of scope. -/
def signup (hash : String → String) (args : SignupArgs) (db : DB) : DB × User :=
  let user : User :=
    { id := db.nextId, name := args.name, email := jsToLower args.email,
      password := hash args.password,
      permissions := ["USER", "ITEMCREATE", "ITEMUPDATE", "ITEMDELETE"],
      resetToken := none, resetTokenExpiry := none }
  ({ db with users := db.users ++ [user], nextId := db.nextId + 1 }, user)

/-- Resolver `signin`: look the user up by the supplied email exactly as given
(the store's `user({ where: { email } })` is an equality filter on the
unique email field), then check the password with the external
`bcrypt.compare` collaborator. -/
def signin (check : String → String → Bool) (email password : String) (db : DB) :
    Except Err User :=
  match db.users.find? (fun u => u.email == email) with
  | none => .error .NotFound
  | some user =>
    if check password user.password then .ok user
    else .error .PasswordMismatch

/-- Resolver `requestReset`: find the user by email, store a fresh reset token
with expiry one hour from now (`Date.now() + 3600000`).  The token and
the current time come from external collaborators, so they are
parameters; the outgoing email is out of scope. -/
def requestReset (resetToken : String) (now : Int) (email : String) (db : DB) :
    DB × Except Err Unit :=
  match db.users.find? (fun u => u.email == email) with
  | none => (db, .error .NotFound)
  | some user =>
    ({ db with users := db.users.map (fun u =>
        if u.email == user.email then
          { u with resetToken := some resetToken,
                   resetTokenExpiry := some (now + 3600000) }
        else u) },
     .ok ())

/-- Arguments of `resetPassword`. -/
structure ResetArgs where
  resetToken : String
  password : String
  confirmPassword : String
  oldPassword : String

/-- Resolver `resetPassword`: require `password == confirmPassword`; find a user
whose stored token matches and whose `resetTokenExpiry` is at least
`Date.now() - 3600000` (exactly the source's `resetTokenExpiry_gte`
filter); check the old password; then store the new hash and clear the
reset fields, keyed by the user's email. -/
def resetPassword (hash : String → String) (check : String → String → Bool)
    (args : ResetArgs) (now : Int) (db : DB) : DB × Except Err User :=
  if args.password ≠ args.confirmPassword then (db, .error .PasswordMismatch)
  else
    match db.users.find? (fun u =>
        u.resetToken == some args.resetToken &&
        (match u.resetTokenExpiry with
         | some e => now - 3600000 ≤ e
         | none => false)) with
    | none => (db, .error .InvalidOrExpiredToken)
    | some user =>
      if check args.oldPassword user.password then
        let updated : User :=
          { user with password := hash args.password,
                      resetToken := none, resetTokenExpiry := none }
        ({ db with users := db.users.map (fun u =>
            if u.email == user.email then
              { u with password := hash args.password,
                       resetToken := none, resetTokenExpiry := none }
            else u) },
         .ok updated)
      else (db, .error .PasswordMismatch)

/-- Resolver `updatePermissions`: require a signed-in user, fetch the caller,
require `ADMIN` or `PERMISSIONUPDATE`, then fully replace the target
user's permission set. -/
def updatePermissions (req : Request) (newPermissions : List String)
    (targetUserId : Nat) (db : DB) : DB × Except Err Unit :=
  match req.userId with
  | none => (db, .error signInError)
  | some userId =>
    let currentUser := db.users.find? (fun u => u.id == userId)
    match hasPermission currentUser ["ADMIN", "PERMISSIONUPDATE"] with
    | .error e => (db, .error e)
    | .ok _ =>
      ({ db with users := db.users.map (fun u =>
          if u.id == targetUserId then { u with permissions := newPermissions } else u) },
       .ok ())

/-- Resolver `addToCart`: require a signed-in user; query the caller's cart rows
for the given item and take the first; if one exists, update its
quantity to `quantity + 1`; otherwise create a fresh cart item connected
to the user and the item.  The created row carries quantity 1 —
modelled from the spec (§4.5 "else create with quantity 1"): the source
passes no quantity and relies on the datamodel's default, and the
datamodel file is not among the provided sources. -/
def addToCart (req : Request) (argsId : Nat) (db : DB) : DB × Except Err CartItem :=
  match req.userId with
  | none => (db, .error signInError)
  | some userId =>
    match db.cartItems.find? (fun ci => ci.userId == userId && ci.itemId == argsId) with
    | some existingCartItem =>
      let updated := { existingCartItem with quantity := existingCartItem.quantity + 1 }
      ({ db with cartItems := db.cartItems.map (fun ci =>
          if ci.id == existingCartItem.id then updated else ci) },
       .ok updated)
    | none =>
      let fresh : CartItem :=
        { id := db.nextId, userId := userId, itemId := argsId, quantity := 1 }
      ({ db with cartItems := db.cartItems ++ [fresh], nextId := db.nextId + 1 },
       .ok fresh)

/-- Resolver `removeFromCart`: fetch the cart item, require that the caller owns
it, then delete it. -/
def removeFromCart (req : Request) (argsId : Nat) (db : DB) : DB × Except Err CartItem :=
  match db.cartItems.find? (fun ci => ci.id == argsId) with
  | none => (db, .error .NotFound)
  | some cartItem =>
    let owns : Bool := match req.userId with
      | some uid => cartItem.userId == uid
      | none => false
    if owns then
      ({ db with cartItems := db.cartItems.filter (fun ci => !(ci.id == argsId)) },
       .ok cartItem)
    else (db, .error itemOwnershipError)

/-- Join each cart row with its referenced item record, as the checkout
query's `cart { ... item { ... } }` embedding does; `none` if a
reference dangles (where the JS resolver would crash dereferencing
`cartItem.item`). -/
def joinItems (items : List Item) : List CartItem → Option (List (CartItem × Item))
  | [] => some []
  | ci :: rest =>
    match items.find? (fun it => it.id == ci.itemId) with
    | none => none
    | some it => (joinItems items rest).map (fun l => (ci, it) :: l)

/-- The caller's cart with embedded items, in store order. -/
def fetchCart (db : DB) (userId : Nat) : Option (List (CartItem × Item)) :=
  joinItems db.items (db.cartItems.filter (fun ci => ci.userId == userId))

/-- The checkout total: `user.cart.reduce((total, cartItem) =>
total + cartItem.item.price * cartItem.quantity, 0)`. -/
def cartTotal (cart : List (CartItem × Item)) : Nat :=
  cart.foldl (fun total p => total + p.2.price * p.1.quantity) 0

/-- The order line built from one cart row: a copy of the item's fields
with the item's `id` deleted, plus the quantity and the owning user. -/
def toOrderItem (userId : Nat) (p : CartItem × Item) : OrderItem :=
  { title := p.2.title, description := p.2.description, image := p.2.image,
    largeImage := p.2.largeImage, price := p.2.price,
    quantity := p.1.quantity, userId := userId }

/-- Store operation `deleteManyCartItems({ where: { id_in: ids } })`: remove every cart
item whose id is in `ids`. -/
def deleteManyCartItems (db : DB) (ids : List Nat) : DB :=
  { db with cartItems := db.cartItems.filter (fun ci => !(ids.contains ci.id)) }

/-- Steps 1–5 of `createOrder`: require a signed-in user, fetch the user
record and their cart with embedded items (`ctx.db.query.user` — the JS
crashes if the record is gone), recompute the total, submit the charge to the
gateway, convert the cart rows to order lines and persist the Order
(total and charge taken from the confirmed charge).  Returns the order
together with the captured cart-item ids; the cart is not yet cleared. -/
def createOrderPersist (gw : Gateway) (req : Request) (token : String) (db : DB) :
    DB × Except Err (Order × List Nat) :=
  match req.userId with
  | none => (db, .error signInError)
  | some userId =>
    match db.users.find? (fun u => u.id == userId) with
    | none => (db, .error .InternalError)
    | some _ =>
    match fetchCart db userId with
    | none => (db, .error .InternalError)
    | some cart =>
      let amount := cartTotal cart
      match gw amount "USD" token with
      | .error _ => (db, .error .PaymentFailed)
      | .ok charge =>
        let orderItems := cart.map (toOrderItem userId)
        let order : Order :=
          { id := db.nextId, total := charge.amount, charge := charge.id,
            items := orderItems, userId := userId }
        let cartItemIds := cart.map (fun p => p.1.id)
        ({ db with orders := db.orders ++ [order], nextId := db.nextId + 1 },
         .ok (order, cartItemIds))

/-- The whole `createOrder` resolver: steps 1–5 above, then step 6
deletes the captured cart items. -/
def createOrder (gw : Gateway) (req : Request) (token : String) (db : DB) :
    DB × Except Err Order :=
  match createOrderPersist gw req token db with
  | (db1, .error e) => (db1, .error e)
  | (db1, .ok (order, cartItemIds)) =>
    (deleteManyCartItems db1 cartItemIds, .ok order)

/-! ## Helper lemmas -/

/-- The source's `reduce` over the cart equals the spec's sum of
`item.price * quantity` over all cart entries. -/
theorem cartTotal_eq_sum (cart : List (CartItem × Item)) :
    cartTotal cart = (cart.map (fun p => p.2.price * p.1.quantity)).sum := by
  have h : ∀ (l : List (CartItem × Item)) (n : Nat),
      l.foldl (fun total p => total + p.2.price * p.1.quantity) n
        = n + (l.map (fun p => p.2.price * p.1.quantity)).sum := by
    intro l
    induction l with
    | nil => intro n; simp
    | cons a t ih => intro n; simp [ih, Nat.add_assoc]
  simpa [cartTotal] using h cart 0

/-! ## C1, C2, C7: the checkout workflow -/

/-- C1: for every checkout with a non-empty cart, the persisted Order's
`total` equals the gateway's confirmed charge amount, its `charge`
equals the charge's identifier, and the amount submitted to the gateway
(`cartTotal cart`, the scrutinee of the `gw` hypothesis) equals the sum
over all of the caller's cart entries of `item.price * quantity`. -/
theorem createOrder_total_matches_charge
    (gw : Gateway) (req : Request) (token : String) (db : DB)
    (uid : Nat) (u : User) (cart : List (CartItem × Item)) (charge : Charge)
    (hreq : req.userId = some uid)
    (huser : db.users.find? (fun x => x.id == uid) = some u)
    (hcart : fetchCart db uid = some cart)
    (hne : cart ≠ [])
    (hgw : gw (cartTotal cart) "USD" token = .ok charge) :
    ∃ db' : DB,
      createOrder gw req token db =
        (db', .ok { id := db.nextId, total := charge.amount, charge := charge.id,
                    items := cart.map (toOrderItem uid), userId := uid }) ∧
      db'.orders = db.orders ++
        [{ id := db.nextId, total := charge.amount, charge := charge.id,
           items := cart.map (toOrderItem uid), userId := uid }] ∧
      cartTotal cart = (cart.map (fun p => p.2.price * p.1.quantity)).sum := by
  have h : createOrder gw req token db =
      (deleteManyCartItems
         { db with
             orders := db.orders ++
               [{ id := db.nextId, total := charge.amount, charge := charge.id,
                  items := cart.map (toOrderItem uid), userId := uid }],
             nextId := db.nextId + 1 }
         (cart.map (fun p => p.1.id)),
       .ok { id := db.nextId, total := charge.amount, charge := charge.id,
             items := cart.map (toOrderItem uid), userId := uid }) := by
    simp [createOrder, createOrderPersist, hreq, huser, hcart, hgw]
  exact ⟨_, h, by simp [deleteManyCartItems], cartTotal_eq_sum cart⟩

/-- Closed instance of C1 on the spec's §8 test vector: a cart of
`(price 500, qty 2)` and `(price 300, qty 1)` submits 1300 to the
gateway and persists an order with `total = 1300`. -/
theorem createOrder_total_matches_charge_witness :
    ∃ db' : DB,
      createOrder (fun amount _ _ => .ok ⟨"ch_1", amount⟩) ⟨some 1, none⟩ "tok"
          ⟨[⟨1, "n", "a@b.c", "pw", [], none, none⟩],
           [⟨2, "shirt", "d", "i", "li", 500, 1⟩, ⟨3, "hat", "d", "i", "li", 300, 1⟩],
           [⟨4, 1, 2, 2⟩, ⟨5, 1, 3, 1⟩], [], 6⟩ =
        (db', .ok { id := 6, total := 1300, charge := "ch_1",
                    items := [(⟨4, 1, 2, 2⟩, ⟨2, "shirt", "d", "i", "li", 500, 1⟩),
                              (⟨5, 1, 3, 1⟩, ⟨3, "hat", "d", "i", "li", 300, 1⟩)].map
                        (toOrderItem 1),
                    userId := 1 }) ∧
      db'.orders = [{ id := 6, total := 1300, charge := "ch_1",
                      items := [(⟨4, 1, 2, 2⟩, ⟨2, "shirt", "d", "i", "li", 500, 1⟩),
                                (⟨5, 1, 3, 1⟩, ⟨3, "hat", "d", "i", "li", 300, 1⟩)].map
                          (toOrderItem 1),
                      userId := 1 }] ∧
      cartTotal [(⟨4, 1, 2, 2⟩, ⟨2, "shirt", "d", "i", "li", 500, 1⟩),
                 (⟨5, 1, 3, 1⟩, ⟨3, "hat", "d", "i", "li", 300, 1⟩)]
        = (([(⟨4, 1, 2, 2⟩, ⟨2, "shirt", "d", "i", "li", 500, 1⟩),
             (⟨5, 1, 3, 1⟩, ⟨3, "hat", "d", "i", "li", 300, 1⟩)] :
              List (CartItem × Item)).map
            (fun p => p.2.price * p.1.quantity)).sum := by
  have h := createOrder_total_matches_charge
    (fun amount _ _ => .ok ⟨"ch_1", amount⟩) ⟨some 1, none⟩ "tok"
    ⟨[⟨1, "n", "a@b.c", "pw", [], none, none⟩],
     [⟨2, "shirt", "d", "i", "li", 500, 1⟩, ⟨3, "hat", "d", "i", "li", 300, 1⟩],
     [⟨4, 1, 2, 2⟩, ⟨5, 1, 3, 1⟩], [], 6⟩
    1 ⟨1, "n", "a@b.c", "pw", [], none, none⟩
    [(⟨4, 1, 2, 2⟩, ⟨2, "shirt", "d", "i", "li", 500, 1⟩),
     (⟨5, 1, 3, 1⟩, ⟨3, "hat", "d", "i", "li", 300, 1⟩)]
    ⟨"ch_1", 1300⟩
    rfl rfl rfl (List.cons_ne_nil _ _) rfl
  exact h

/-- C2: when the gateway's charge call returns an error, `createOrder`
fails with `PaymentFailed` and the store is returned exactly as it was:
no Order or OrderItem is created and every CartItem is intact. -/
theorem createOrder_charge_failure_no_writes
    (gw : Gateway) (req : Request) (token : String) (db : DB)
    (uid : Nat) (u : User) (cart : List (CartItem × Item))
    (hreq : req.userId = some uid)
    (huser : db.users.find? (fun x => x.id == uid) = some u)
    (hcart : fetchCart db uid = some cart)
    (hgw : gw (cartTotal cart) "USD" token = .error ()) :
    createOrder gw req token db = (db, .error .PaymentFailed) := by
  simp [createOrder, createOrderPersist, hreq, huser, hcart, hgw]

/-- Closed instance of C2: a failing gateway leaves a one-item cart
store untouched. -/
theorem createOrder_charge_failure_no_writes_witness :
    createOrder (fun _ _ _ => .error ()) ⟨some 1, none⟩ "tok"
        ⟨[⟨1, "n", "a@b.c", "pw", [], none, none⟩],
         [⟨2, "shirt", "d", "i", "li", 500, 1⟩], [⟨4, 1, 2, 2⟩], [], 6⟩ =
      (⟨[⟨1, "n", "a@b.c", "pw", [], none, none⟩],
        [⟨2, "shirt", "d", "i", "li", 500, 1⟩], [⟨4, 1, 2, 2⟩], [], 6⟩,
       .error .PaymentFailed) :=
  createOrder_charge_failure_no_writes (fun _ _ _ => .error ()) ⟨some 1, none⟩ "tok"
    ⟨[⟨1, "n", "a@b.c", "pw", [], none, none⟩],
     [⟨2, "shirt", "d", "i", "li", 500, 1⟩], [⟨4, 1, 2, 2⟩], [], 6⟩
    1 ⟨1, "n", "a@b.c", "pw", [], none, none⟩ [(⟨4, 1, 2, 2⟩, ⟨2, "shirt", "d", "i", "li", 500, 1⟩)]
    rfl rfl (by simp [fetchCart, joinItems]) rfl

/-- C7: a checkout by an authenticated user with an empty cart computes
`total = 0` and still submits a zero-amount charge to the gateway (the
conclusion depends on `gw` only at amount `0`); when that charge
succeeds the checkout completes instead of rejecting. -/
theorem createOrder_empty_cart_zero_charge
    (gw : Gateway) (req : Request) (token : String) (db : DB)
    (uid : Nat) (u : User) (charge : Charge)
    (hreq : req.userId = some uid)
    (huser : db.users.find? (fun x => x.id == uid) = some u)
    (hempty : db.cartItems.filter (fun ci => ci.userId == uid) = [])
    (hgw : gw 0 "USD" token = .ok charge) :
    cartTotal [] = 0 ∧
    ∃ db' : DB,
      createOrder gw req token db =
        (db', .ok { id := db.nextId, total := charge.amount, charge := charge.id,
                    items := [], userId := uid }) ∧
      db'.cartItems = db.cartItems := by
  have hcart : fetchCart db uid = some [] := by
    simp [fetchCart, hempty, joinItems]
  have h : createOrder gw req token db =
      (deleteManyCartItems
         { db with
             orders := db.orders ++
               [{ id := db.nextId, total := charge.amount, charge := charge.id,
                  items := [], userId := uid }],
             nextId := db.nextId + 1 }
         [],
       .ok { id := db.nextId, total := charge.amount, charge := charge.id,
             items := [], userId := uid }) := by
    simp [createOrder, createOrderPersist, hreq, huser, hcart, cartTotal, hgw]
  exact ⟨rfl, _, h, by simp [deleteManyCartItems]⟩

/-- Closed instance of C7: an empty cart checks out with a zero-amount
charge. -/
theorem createOrder_empty_cart_zero_charge_witness :
    cartTotal [] = 0 ∧
    ∃ db' : DB,
      createOrder (fun amount _ _ => .ok ⟨"ch_0", amount⟩) ⟨some 1, none⟩ "tok"
          ⟨[⟨1, "n", "a@b.c", "pw", [], none, none⟩], [], [], [], 6⟩ =
        (db', .ok { id := 6, total := 0, charge := "ch_0", items := [], userId := 1 }) ∧
      db'.cartItems = [] :=
  createOrder_empty_cart_zero_charge (fun amount _ _ => .ok ⟨"ch_0", amount⟩)
    ⟨some 1, none⟩ "tok" ⟨[⟨1, "n", "a@b.c", "pw", [], none, none⟩], [], [], [], 6⟩
    1 ⟨1, "n", "a@b.c", "pw", [], none, none⟩ ⟨"ch_0", 0⟩ rfl rfl rfl rfl

/-! ## C3: the cart-clearing step deletes exactly the snapshot ids -/

/-- C3: a successful checkout captures the ids of the cart rows fetched
before the charge (`cart.map (fun p => p.1.id)`), and the clearing step
deletes exactly those rows: every captured id is gone from the store,
while rows added for the same user after the fetch (`newItems`,
interleaved between the persistence step and the clearing step) survive
untouched. -/
theorem checkout_deletes_exactly_snapshot_ids
    (gw : Gateway) (req : Request) (token : String) (db : DB)
    (uid : Nat) (u : User) (cart : List (CartItem × Item)) (charge : Charge)
    (newItems : List CartItem)
    (hreq : req.userId = some uid)
    (huser : db.users.find? (fun x => x.id == uid) = some u)
    (hcart : fetchCart db uid = some cart)
    (hgw : gw (cartTotal cart) "USD" token = .ok charge)
    (hfresh : ∀ ci ∈ newItems, ci.id ∉ cart.map (fun p => p.1.id)) :
    ∃ db1 order,
      createOrderPersist gw req token db
        = (db1, .ok (order, cart.map (fun p => p.1.id))) ∧
      db1.cartItems = db.cartItems ∧
      (deleteManyCartItems { db1 with cartItems := db1.cartItems ++ newItems }
          (cart.map (fun p => p.1.id))).cartItems
        = db.cartItems.filter
            (fun ci => !((cart.map (fun p => p.1.id)).contains ci.id)) ++ newItems ∧
      ∀ ci ∈ (deleteManyCartItems { db1 with cartItems := db1.cartItems ++ newItems }
          (cart.map (fun p => p.1.id))).cartItems,
        ci.id ∈ cart.map (fun p => p.1.id) → False := by
  have hp : createOrderPersist gw req token db =
      ({ db with
           orders := db.orders ++
             [{ id := db.nextId, total := charge.amount, charge := charge.id,
                items := cart.map (toOrderItem uid), userId := uid }],
           nextId := db.nextId + 1 },
       .ok ({ id := db.nextId, total := charge.amount, charge := charge.id,
              items := cart.map (toOrderItem uid), userId := uid },
            cart.map (fun p => p.1.id))) := by
    simp [createOrderPersist, hreq, huser, hcart, hgw]
  have hnew : newItems.filter
      (fun ci => !((cart.map (fun p => p.1.id)).contains ci.id)) = newItems := by
    refine List.filter_eq_self.mpr (fun ci hci => ?_)
    simpa using hfresh ci hci
  refine ⟨_, _, hp, rfl, ?_, ?_⟩
  · simp only [deleteManyCartItems, List.filter_append, hnew]
  · intro ci hci hmem
    simp only [deleteManyCartItems, List.filter_append, hnew, List.mem_append,
      List.mem_filter] at hci
    rcases hci with ⟨_, hkeep⟩ | hnewMem
    · simp [hmem] at hkeep
    · exact hfresh ci hnewMem hmem

/-- Closed instance of C3: one charged cart row is deleted, a row added
after the fetch survives. -/
theorem checkout_deletes_exactly_snapshot_ids_witness :
    ∃ db1 order,
      createOrderPersist (fun amount _ _ => .ok ⟨"ch_2", amount⟩) ⟨some 1, none⟩ "tok"
          ⟨[⟨1, "n", "a@b.c", "pw", [], none, none⟩],
           [⟨2, "shirt", "d", "i", "li", 500, 1⟩], [⟨4, 1, 2, 2⟩], [], 6⟩
        = (db1, .ok (order, [4])) ∧
      db1.cartItems = [⟨4, 1, 2, 2⟩] ∧
      (deleteManyCartItems { db1 with cartItems := db1.cartItems ++ [⟨9, 1, 2, 1⟩] }
          [4]).cartItems
        = ([⟨4, 1, 2, 2⟩] : List CartItem).filter
            (fun ci => !(([4] : List Nat).contains ci.id)) ++ [⟨9, 1, 2, 1⟩] ∧
      ∀ ci ∈ (deleteManyCartItems { db1 with cartItems := db1.cartItems ++ [⟨9, 1, 2, 1⟩] }
          [4]).cartItems,
        ci.id ∈ ([4] : List Nat) → False := by
  have h := checkout_deletes_exactly_snapshot_ids
    (fun amount _ _ => .ok ⟨"ch_2", amount⟩) ⟨some 1, none⟩ "tok"
    ⟨[⟨1, "n", "a@b.c", "pw", [], none, none⟩],
     [⟨2, "shirt", "d", "i", "li", 500, 1⟩], [⟨4, 1, 2, 2⟩], [], 6⟩
    1 ⟨1, "n", "a@b.c", "pw", [], none, none⟩
    [(⟨4, 1, 2, 2⟩, ⟨2, "shirt", "d", "i", "li", 500, 1⟩)]
    ⟨"ch_2", 1000⟩ [⟨9, 1, 2, 1⟩]
    rfl rfl rfl rfl (by simp)
  simpa using h

/-! ## C4: addToCart increments or creates -/

/-- An id-keyed row replacement touches nothing when no row carries the
key. -/
theorem map_if_id_eq_self (l : List CartItem) (n : Nat) (f : CartItem → CartItem)
    (h : ∀ ci ∈ l, ci.id ≠ n) :
    l.map (fun ci => if ci.id == n then f ci else ci) = l := by
  induction l with
  | nil => rfl
  | cons a t ih =>
    have ha : ¬ ((a.id == n) = true) := by
      simpa using h a (by simp)
    rw [List.map_cons, if_neg ha, ih (fun ci hci => h ci (List.mem_cons_of_mem _ hci))]

/-- A list on which `find?` fails filters to nothing. -/
theorem filter_eq_nil_of_find_none {α : Type} (l : List α) (p : α → Bool)
    (h : l.find? p = none) : l.filter p = [] := by
  rw [List.filter_eq_nil_iff]
  intro a ha
  have := List.find?_eq_none.mp h a ha
  simpa using this

/-- C4: for an authenticated caller, (i) if a CartItem for the
(user, item) pair exists, its quantity is incremented by exactly 1 and
no row is created; (ii) if none exists, a fresh row with quantity 1 is
created; hence (iii) two sequential calls starting from a store with no
such row leave exactly one (user, item) row, with quantity 2, and grow
the store by exactly one row. -/
theorem addToCart_increment_or_create
    (req : Request) (uid itemId : Nat) (hreq : req.userId = some uid) :
    (∀ db : DB, ∀ ex : CartItem,
        db.cartItems.find? (fun ci => ci.userId == uid && ci.itemId == itemId) = some ex →
        ∃ db' : DB,
          addToCart req itemId db = (db', .ok { ex with quantity := ex.quantity + 1 }) ∧
          db'.cartItems.length = db.cartItems.length) ∧
    (∀ db : DB,
        db.cartItems.find? (fun ci => ci.userId == uid && ci.itemId == itemId) = none →
        addToCart req itemId db =
          ({ db with cartItems := db.cartItems ++ [⟨db.nextId, uid, itemId, 1⟩],
                     nextId := db.nextId + 1 },
           .ok ⟨db.nextId, uid, itemId, 1⟩)) ∧
    (∀ db : DB,
        db.cartItems.find? (fun ci => ci.userId == uid && ci.itemId == itemId) = none →
        (∀ ci ∈ db.cartItems, ci.id ≠ db.nextId) →
        ((addToCart req itemId (addToCart req itemId db).1).1.cartItems.filter
            (fun ci => ci.userId == uid && ci.itemId == itemId))
          = [⟨db.nextId, uid, itemId, 2⟩] ∧
        (addToCart req itemId (addToCart req itemId db).1).1.cartItems.length
          = db.cartItems.length + 1) := by
  have hcreate : ∀ db : DB,
      db.cartItems.find? (fun ci => ci.userId == uid && ci.itemId == itemId) = none →
      addToCart req itemId db =
        ({ db with cartItems := db.cartItems ++ [⟨db.nextId, uid, itemId, 1⟩],
                   nextId := db.nextId + 1 },
         .ok ⟨db.nextId, uid, itemId, 1⟩) := by
    intro db h
    simp [addToCart, hreq, h]
  refine ⟨?_, hcreate, ?_⟩
  · intro db ex h
    have h1 : addToCart req itemId db =
        ({ db with cartItems := db.cartItems.map (fun ci =>
             if ci.id == ex.id then { ex with quantity := ex.quantity + 1 } else ci) },
         .ok { ex with quantity := ex.quantity + 1 }) := by
      simp [addToCart, hreq, h]
    exact ⟨_, h1, by simp⟩
  · intro db hnone hids
    have h1 := hcreate db hnone
    have hfind : ((db.cartItems ++ [(⟨db.nextId, uid, itemId, 1⟩ : CartItem)]).find?
        (fun ci => ci.userId == uid && ci.itemId == itemId))
        = some ⟨db.nextId, uid, itemId, 1⟩ := by
      rw [List.find?_append, hnone]
      simp
    rw [h1]
    dsimp only
    simp only [addToCart, hreq, hfind]
    rw [List.map_append, map_if_id_eq_self db.cartItems db.nextId _ hids]
    constructor
    · rw [List.filter_append, filter_eq_nil_of_find_none _ _ hnone]
      simp
    · simp

/-- Closed instance of C4: two sequential addToCart calls on an empty
store yield one row of quantity 2. -/
theorem addToCart_increment_or_create_witness :
    ((addToCart ⟨some 1, none⟩ 2 ((addToCart ⟨some 1, none⟩ 2
        (⟨[], [], [], [], 5⟩ : DB)).1)).1.cartItems.filter
      (fun ci => ci.userId == 1 && ci.itemId == 2)) = [⟨5, 1, 2, 2⟩] ∧
    (addToCart ⟨some 1, none⟩ 2 ((addToCart ⟨some 1, none⟩ 2
        (⟨[], [], [], [], 5⟩ : DB)).1)).1.cartItems.length = 1 := by
  have h := (addToCart_increment_or_create ⟨some 1, none⟩ 1 2 rfl).2.2
    (⟨[], [], [], [], 5⟩ : DB) rfl (by simp)
  simpa using h

/-! ## C5: guard failures happen before any write -/

/-- The guard-failure signals of spec §7. -/
def GuardErr (e : Err) : Prop :=
  e = .NotAuthenticated ∨ e = .OwnershipDenied ∨ e = .PermissionDenied

/-- C5: in every mutation handler, when a guard rejects
(`NotAuthenticated`, `OwnershipDenied` or `PermissionDenied`) the
returned store is exactly the input store — all guards run strictly
before the handler's first persistence write. -/
theorem guard_failures_write_nothing :
    (∀ (req : Request) (args : ItemArgs) (db : DB) (e : Err), GuardErr e →
        (createItem req args db).2 = .error e → (createItem req args db).1 = db) ∧
    (∀ (req : Request) (args : JsObj) (db : DB) (e : Err), GuardErr e →
        (updateItem req args db).2 = .error e → (updateItem req args db).1 = db) ∧
    (∀ (req : Request) (argsId : Nat) (db : DB) (e : Err), GuardErr e →
        (deleteItem req argsId db).2 = .error e → (deleteItem req argsId db).1 = db) ∧
    (∀ (req : Request) (ps : List String) (t : Nat) (db : DB) (e : Err), GuardErr e →
        (updatePermissions req ps t db).2 = .error e →
        (updatePermissions req ps t db).1 = db) ∧
    (∀ (req : Request) (argsId : Nat) (db : DB) (e : Err), GuardErr e →
        (addToCart req argsId db).2 = .error e → (addToCart req argsId db).1 = db) ∧
    (∀ (req : Request) (argsId : Nat) (db : DB) (e : Err), GuardErr e →
        (removeFromCart req argsId db).2 = .error e →
        (removeFromCart req argsId db).1 = db) ∧
    (∀ (gw : Gateway) (req : Request) (token : String) (db : DB) (e : Err), GuardErr e →
        (createOrder gw req token db).2 = .error e →
        (createOrder gw req token db).1 = db) := by
  refine ⟨?_, ?_, ?_, ?_, ?_, ?_, ?_⟩
  · intro req args db e _ h
    cases hq : req.userId with
    | none => simp [createItem, hq]
    | some uid =>
      cases hp : hasPermission req.user ["ITEMCREATE"] with
      | error e' => simp [createItem, hq, hp]
      | ok u => simp [createItem, hq, hp] at h
  · intro req args db e _ h
    cases hg : jsGet args "id" with
    | none => simp [updateItem, hg]
    | some v =>
      cases v with
      | str s => simp [updateItem, hg]
      | num aid =>
        cases hf : db.items.find? (fun it => it.id == aid) with
        | none => simp [updateItem, hg, hf]
        | some item =>
          cases hq : req.userId with
          | none => simp [updateItem, hg, hf, hq]
          | some uid =>
            cases ho : item.userId == uid with
            | false => simp [updateItem, hg, hf, hq, ho]
            | true =>
              cases hp : hasPermission req.user ["ITEMUPDATE"] with
              | error e' => simp [updateItem, hg, hf, hq, ho, hp]
              | ok u => simp [updateItem, hg, hf, hq, ho, hp] at h
  · intro req argsId db e _ h
    cases hf : db.items.find? (fun it => it.id == argsId) with
    | none => simp [deleteItem, hf]
    | some item =>
      cases hq : req.userId with
      | none => simp [deleteItem, hf, hq]
      | some uid =>
        cases ho : item.userId == uid with
        | false => simp [deleteItem, hf, hq, ho]
        | true =>
          cases hp : hasPermission req.user ["ITEMDELETE"] with
          | error e' => simp [deleteItem, hf, hq, ho, hp]
          | ok u => simp [deleteItem, hf, hq, ho, hp] at h
  · intro req ps t db e _ h
    cases hq : req.userId with
    | none => simp [updatePermissions, hq]
    | some uid =>
      cases hp : hasPermission (db.users.find? (fun u => u.id == uid))
          ["ADMIN", "PERMISSIONUPDATE"] with
      | error e' => simp [updatePermissions, hq, hp]
      | ok u => simp [updatePermissions, hq, hp] at h
  · intro req argsId db e _ h
    cases hq : req.userId with
    | none => simp [addToCart, hq]
    | some uid =>
      cases hf : db.cartItems.find? (fun ci => ci.userId == uid && ci.itemId == argsId) with
      | none => simp [addToCart, hq, hf] at h
      | some ex => simp [addToCart, hq, hf] at h
  · intro req argsId db e _ h
    cases hf : db.cartItems.find? (fun ci => ci.id == argsId) with
    | none => simp [removeFromCart, hf]
    | some ci =>
      cases hq : req.userId with
      | none => simp [removeFromCart, hf, hq]
      | some uid =>
        cases ho : ci.userId == uid with
        | false => simp [removeFromCart, hf, hq, ho]
        | true => simp [removeFromCart, hf, hq, ho] at h
  · intro gw req token db e _ h
    cases hq : req.userId with
    | none => simp [createOrder, createOrderPersist, hq]
    | some uid =>
      cases hu : db.users.find? (fun u => u.id == uid) with
      | none => simp [createOrder, createOrderPersist, hq, hu]
      | some u =>
        cases hc : fetchCart db uid with
        | none => simp [createOrder, createOrderPersist, hq, hu, hc]
        | some cart =>
          cases hg2 : gw (cartTotal cart) "USD" token with
          | error u2 => simp [createOrder, createOrderPersist, hq, hu, hc, hg2]
          | ok charge => simp [createOrder, createOrderPersist, hq, hu, hc, hg2] at h

/-- Closed instances of C5: one rejected call per handler, each leaving
the store it was given unchanged. -/
theorem guard_failures_write_nothing_witness :
    (createItem ⟨none, none⟩ ⟨"t", "d", "i", "l", 5⟩ ⟨[], [], [], [], 0⟩).1
      = ⟨[], [], [], [], 0⟩ ∧
    (updateItem ⟨none, none⟩ [("id", .num 1)]
        ⟨[], [⟨1, "t", "d", "i", "l", 5, 2⟩], [], [], 9⟩).1
      = ⟨[], [⟨1, "t", "d", "i", "l", 5, 2⟩], [], [], 9⟩ ∧
    (deleteItem ⟨none, none⟩ 1 ⟨[], [⟨1, "t", "d", "i", "l", 5, 2⟩], [], [], 9⟩).1
      = ⟨[], [⟨1, "t", "d", "i", "l", 5, 2⟩], [], [], 9⟩ ∧
    (updatePermissions ⟨none, none⟩ ["ADMIN"] 1 ⟨[], [], [], [], 0⟩).1
      = ⟨[], [], [], [], 0⟩ ∧
    (addToCart ⟨none, none⟩ 1 ⟨[], [], [], [], 0⟩).1 = ⟨[], [], [], [], 0⟩ ∧
    (removeFromCart ⟨some 3, none⟩ 4 ⟨[], [], [⟨4, 1, 2, 1⟩], [], 9⟩).1
      = ⟨[], [], [⟨4, 1, 2, 1⟩], [], 9⟩ ∧
    (createOrder (fun _ _ _ => .error ()) ⟨none, none⟩ "tok" ⟨[], [], [], [], 0⟩).1
      = ⟨[], [], [], [], 0⟩ :=
  ⟨guard_failures_write_nothing.1 ⟨none, none⟩ ⟨"t", "d", "i", "l", 5⟩
      ⟨[], [], [], [], 0⟩ .NotAuthenticated (Or.inl rfl) rfl,
   guard_failures_write_nothing.2.1 ⟨none, none⟩ [("id", .num 1)]
      ⟨[], [⟨1, "t", "d", "i", "l", 5, 2⟩], [], [], 9⟩ .OwnershipDenied
      (Or.inr (Or.inl rfl)) rfl,
   guard_failures_write_nothing.2.2.1 ⟨none, none⟩ 1
      ⟨[], [⟨1, "t", "d", "i", "l", 5, 2⟩], [], [], 9⟩ .OwnershipDenied
      (Or.inr (Or.inl rfl)) rfl,
   guard_failures_write_nothing.2.2.2.1 ⟨none, none⟩ ["ADMIN"] 1
      ⟨[], [], [], [], 0⟩ .NotAuthenticated (Or.inl rfl) rfl,
   guard_failures_write_nothing.2.2.2.2.1 ⟨none, none⟩ 1
      ⟨[], [], [], [], 0⟩ .NotAuthenticated (Or.inl rfl) rfl,
   guard_failures_write_nothing.2.2.2.2.2.1 ⟨some 3, none⟩ 4
      ⟨[], [], [⟨4, 1, 2, 1⟩], [], 9⟩ .OwnershipDenied (Or.inr (Or.inl rfl)) rfl,
   guard_failures_write_nothing.2.2.2.2.2.2 (fun _ _ _ => .error ()) ⟨none, none⟩
      "tok" ⟨[], [], [], [], 0⟩ .NotAuthenticated (Or.inl rfl) rfl⟩

/-! ## C6: anonymous updateItem/deleteItem -/

/-- C6 counterexample: with no caller identity and an existing item,
`updateItem` and `deleteItem` signal `OwnershipDenied`, not
`NotAuthenticated` — neither resolver has an authentication check. -/
theorem anonymous_item_mutation_not_authenticated_refuted :
    (updateItem ⟨none, none⟩ [("id", .num 1)]
        ⟨[], [⟨1, "t", "d", "i", "l", 5, 2⟩], [], [], 9⟩).2 = .error .OwnershipDenied ∧
    ¬ ((updateItem ⟨none, none⟩ [("id", .num 1)]
        ⟨[], [⟨1, "t", "d", "i", "l", 5, 2⟩], [], [], 9⟩).2 = .error .NotAuthenticated) ∧
    (deleteItem ⟨none, none⟩ 1
        ⟨[], [⟨1, "t", "d", "i", "l", 5, 2⟩], [], [], 9⟩).2 = .error .OwnershipDenied ∧
    ¬ ((deleteItem ⟨none, none⟩ 1
        ⟨[], [⟨1, "t", "d", "i", "l", 5, 2⟩], [], [], 9⟩).2 = .error .NotAuthenticated) := by
  refine ⟨rfl, fun hcontra => ?_, rfl, fun hcontra => ?_⟩
  · exact Err.noConfusion (Except.error.inj hcontra)
  · exact Err.noConfusion (Except.error.inj hcontra)

/-- C6 (amended): an `updateItem` or `deleteItem` call with no caller
identity on an existing item fails with `OwnershipDenied` and leaves
the store unchanged: the ownership comparison runs first, an anonymous
caller never equals the item's owner, and the permission check is never
reached. -/
theorem anonymous_item_mutation_ownership_denied
    (req : Request) (args : JsObj) (argsId : Nat) (item : Item) (db : DB)
    (hreq : req.userId = none)
    (hget : jsGet args "id" = some (.num argsId))
    (hfind : db.items.find? (fun it => it.id == argsId) = some item) :
    updateItem req args db = (db, .error .OwnershipDenied) ∧
    deleteItem req argsId db = (db, .error .OwnershipDenied) := by
  constructor
  · simp [updateItem, hget, hfind, hreq, itemOwnershipError]
  · simp [deleteItem, hfind, hreq, itemOwnershipError]

/-- Closed instance of the amended C6. -/
theorem anonymous_item_mutation_ownership_denied_witness :
    updateItem ⟨none, none⟩ [("id", .num 1)]
        ⟨[], [⟨1, "t", "d", "i", "l", 5, 2⟩], [], [], 9⟩
      = (⟨[], [⟨1, "t", "d", "i", "l", 5, 2⟩], [], [], 9⟩, .error .OwnershipDenied) ∧
    deleteItem ⟨none, none⟩ 1 ⟨[], [⟨1, "t", "d", "i", "l", 5, 2⟩], [], [], 9⟩
      = (⟨[], [⟨1, "t", "d", "i", "l", 5, 2⟩], [], [], 9⟩, .error .OwnershipDenied) :=
  anonymous_item_mutation_ownership_denied ⟨none, none⟩ [("id", .num 1)] 1
    ⟨1, "t", "d", "i", "l", 5, 2⟩ ⟨[], [⟨1, "t", "d", "i", "l", 5, 2⟩], [], [], 9⟩
    rfl rfl rfl

/-! ## C8: expired reset tokens -/

/-- C8: the code accepts a reset token that is already past its stored
expiry.  With `resetTokenExpiry = 1000000000` and current time
`1001800000` (30 minutes after expiry), `resetPassword` succeeds and
overwrites the password and reset fields, instead of failing with
`InvalidOrExpiredToken` as the spec requires: the source's
`resetTokenExpiry_gte: Date.now() - 3600000` filter tolerates a full
extra hour past the stored expiry. -/
theorem resetPassword_accepts_expired_token :
    (1000000000 : Int) < 1001800000 ∧
    resetPassword (fun s => s ++ "h") (fun p hp => hp == p ++ "h")
        ⟨"tok", "new", "new", "old"⟩ 1001800000
        ⟨[⟨1, "n", "a@b.c", "oldh", [], some "tok", some 1000000000⟩], [], [], [], 2⟩
      = (⟨[⟨1, "n", "a@b.c", "newh", [], none, none⟩], [], [], [], 2⟩,
         .ok ⟨1, "n", "a@b.c", "newh", [], none, none⟩) := by
  exact ⟨by norm_num, rfl⟩

/-! ## C9: email normalization -/

/-- C9 counterexample: signup stores `"A@B.c"` lowercased as
`"a@b.c"`, but a signin that supplies the very same spelling
`"A@B.c"` fails with `NotFound`: the signin lookup matches the supplied
email exactly and does not normalize its case. -/
theorem signin_mixed_case_email_not_found :
    ((signup (fun s => s ++ "h") ⟨"n", "A@B.c", "pw"⟩ ⟨[], [], [], [], 1⟩).2).email
      = "a@b.c" ∧
    signin (fun p hp => hp == p ++ "h") "A@B.c" "pw"
        (signup (fun s => s ++ "h") ⟨"n", "A@B.c", "pw"⟩ ⟨[], [], [], [], 1⟩).1
      = .error .NotFound := by
  exact ⟨rfl, rfl⟩

/-- C9 (amended): signup stores the lowercase form of the supplied
email; signin looks the account up by exact string match on the email
as supplied, so it finds the account iff the supplied email equals the
stored lowercase form — a differently-cased signin email fails with
`NotFound` rather than matching case-insensitively. -/
theorem signup_lowercases_signin_exact
    (hash : String → String) (check : String → String → Bool)
    (args : SignupArgs) (n : Nat)
    (hcheck : check args.password (hash args.password) = true) :
    ((signup hash args ⟨[], [], [], [], n⟩).2).email = jsToLower args.email ∧
    signin check (jsToLower args.email) args.password
        (signup hash args ⟨[], [], [], [], n⟩).1
      = .ok (signup hash args ⟨[], [], [], [], n⟩).2 ∧
    ∀ e : String, e ≠ jsToLower args.email →
      signin check e args.password (signup hash args ⟨[], [], [], [], n⟩).1
        = .error .NotFound := by
  refine ⟨rfl, ?_, ?_⟩
  · simp [signin, signup, hcheck]
  · intro e he
    have hbeq : (jsToLower args.email == e) = false := by
      rw [beq_eq_false_iff_ne]
      exact Ne.symm he
    simp [signin, signup, hbeq]

/-- Closed instance of the amended C9. -/
theorem signup_lowercases_signin_exact_witness :
    ((signup (fun s => s ++ "h") ⟨"n", "A@B.c", "pw"⟩ ⟨[], [], [], [], 1⟩).2).email
      = "a@b.c" ∧
    signin (fun p hp => hp == p ++ "h") "a@b.c" "pw"
        (signup (fun s => s ++ "h") ⟨"n", "A@B.c", "pw"⟩ ⟨[], [], [], [], 1⟩).1
      = .ok (signup (fun s => s ++ "h") ⟨"n", "A@B.c", "pw"⟩ ⟨[], [], [], [], 1⟩).2 ∧
    signin (fun p hp => hp == p ++ "h") "A@b.c" "pw"
        (signup (fun s => s ++ "h") ⟨"n", "A@B.c", "pw"⟩ ⟨[], [], [], [], 1⟩).1
      = .error .NotFound := by
  have h := signup_lowercases_signin_exact (fun s => s ++ "h")
    (fun p hp => hp == p ++ "h") ⟨"n", "A@B.c", "pw"⟩ 1 rfl
  exact ⟨h.1, h.2.1, h.2.2 "A@b.c" (by decide)⟩

/-! ## C10: updateItem never updates the identifier -/

/-- A payload with no `"id"` key leaves an item's identifier fixed. -/
theorem applyFields_id_unchanged (it : Item) (o : JsObj)
    (h : ∀ kv ∈ o, kv.1 ≠ "id") : (applyFields it o).id = it.id := by
  induction o generalizing it with
  | nil => rfl
  | cons kv t ih =>
    have hk : kv.1 ≠ "id" := h kv (by simp)
    have hstep : (applyField it kv.1 kv.2).id = it.id := by
      unfold applyField
      rw [if_neg hk]
      repeat' split
      all_goals rfl
    have htail : (applyFields (applyField it kv.1 kv.2) t).id
        = (applyField it kv.1 kv.2).id :=
      ih _ (fun kv' h' => h kv' (List.mem_cons_of_mem _ h'))
    calc (applyFields it (kv :: t)).id
        = (applyFields (applyField it kv.1 kv.2) t).id := rfl
      _ = (applyField it kv.1 kv.2).id := htail
      _ = it.id := hstep

/-- C10: when `updateItem` passes its guards, the payload sent to the
store is exactly the supplied arguments with the `id` key removed —
every supplied non-id field is in the payload, no `id` field is, and
applying the payload leaves the item's identifier unchanged. -/
theorem updateItem_strips_id_from_payload
    (req : Request) (args : JsObj) (db : DB) (uid argsId : Nat) (item : Item)
    (hget : jsGet args "id" = some (.num argsId))
    (hfind : db.items.find? (fun it => it.id == argsId) = some item)
    (hreq : req.userId = some uid)
    (howns : item.userId = uid)
    (hperm : hasPermission req.user ["ITEMUPDATE"] = .ok ()) :
    (∀ kv ∈ jsDelete args "id", kv.1 ≠ "id") ∧
    (∀ kv ∈ args, kv.1 ≠ "id" → kv ∈ jsDelete args "id") ∧
    (applyFields item (jsDelete args "id")).id = item.id ∧
    updateItem req args db =
      ({ db with items := db.items.map (fun it =>
           if it.id == argsId then applyFields item (jsDelete args "id") else it) },
       .ok (applyFields item (jsDelete args "id"))) := by
  have h1 : ∀ kv ∈ jsDelete args "id", kv.1 ≠ "id" := by
    intro kv hkv
    have := List.mem_filter.mp hkv
    simpa using this.2
  refine ⟨h1, ?_, applyFields_id_unchanged item _ h1, ?_⟩
  · intro kv hkv hne
    exact List.mem_filter.mpr ⟨hkv, by simpa using hne⟩
  · have ho : (item.userId == uid) = true := by simp [howns]
    simp [updateItem, hget, hfind, hreq, ho, hperm]

/-- Closed instance of C10: updating the title of item 1 sends a
payload without the id and keeps the identifier at 1. -/
theorem updateItem_strips_id_from_payload_witness :
    (∀ kv ∈ jsDelete [("id", .num 1), ("title", .str "t2")] "id", kv.1 ≠ "id") ∧
    (∀ kv ∈ ([("id", .num 1), ("title", .str "t2")] : JsObj), kv.1 ≠ "id" →
      kv ∈ jsDelete [("id", .num 1), ("title", .str "t2")] "id") ∧
    (applyFields ⟨1, "t", "d", "i", "l", 5, 2⟩
        (jsDelete [("id", .num 1), ("title", .str "t2")] "id")).id = 1 ∧
    updateItem ⟨some 2, some ⟨2, "u", "e", "p", ["ITEMUPDATE"], none, none⟩⟩
        [("id", .num 1), ("title", .str "t2")]
        ⟨[], [⟨1, "t", "d", "i", "l", 5, 2⟩], [], [], 9⟩
      = (⟨[], [⟨1, "t", "d", "i", "l", 5, 2⟩].map (fun it =>
            if it.id == 1
            then applyFields ⟨1, "t", "d", "i", "l", 5, 2⟩
                   (jsDelete [("id", .num 1), ("title", .str "t2")] "id")
            else it), [], [], 9⟩,
         .ok (applyFields ⟨1, "t", "d", "i", "l", 5, 2⟩
                (jsDelete [("id", .num 1), ("title", .str "t2")] "id"))) := by
  have h := updateItem_strips_id_from_payload
    ⟨some 2, some ⟨2, "u", "e", "p", ["ITEMUPDATE"], none, none⟩⟩
    [("id", .num 1), ("title", .str "t2")]
    ⟨[], [⟨1, "t", "d", "i", "l", 5, 2⟩], [], [], 9⟩
    2 1 ⟨1, "t", "d", "i", "l", 5, 2⟩ rfl rfl rfl rfl rfl
  exact h

end GraphQLBackend
